import Mathlib

/-!
Verification of the MedMate client-side API gateway / request-lifecycle layer.

The development shallowly embeds three components of the source:
  * the Request Executor (`requestWithTimeout` in the API client): one fetch
    with an abort timer, JSON parsing, and deterministic error classification;
  * the API Gateway (one request descriptor per backend method, each fixing
    endpoint, HTTP method, body shape and timeout budget);
  * the Session/Auth Coordinator (the auth context provider: `checkAuth`,
    `tryAutoLogin`, `login`, `logout` over {user, loading} state plus the
    persisted credential record in local storage).

Network and storage nondeterminism is made explicit: each external call's
outcome (server response, rejection, timer expiry) is an input to the embedded
function, and the source's try/catch structure is reflected by total matches
on those outcomes.
-/

namespace MedMate

/-! ### Request Executor -/

/-- Message thrown by the executor when the abort timer fired
(`'The request is taking longer than expected. Please try again.'`). -/
def timeoutMessage : String := "The request is taking longer than expected. Please try again."

/-- Message thrown when a non-`Error` value was caught (`'Network error occurred'`). -/
def networkErrorMessage : String := "Network error occurred"

/-- Default message for a non-2xx response whose body has no usable `error`
field (`'Request failed'`). -/
def requestFailedMessage : String := "Request failed"

/-- `diagnoseImage` timeout message (`'Image analysis timeout - please try again'`). -/
def imageTimeoutMessage : String := "Image analysis timeout - please try again"

/-- `diagnoseImage` default non-2xx message (`'Image analysis failed'`). -/
def imageFailedMessage : String := "Image analysis failed"

/-- JavaScript `field || dflt` on an optional string field: `undefined` and the
empty string are falsy, so both fall through to the default. -/
def jsOrString (field : Option String) (dflt : String) : String :=
  match field with
  | none => dflt
  | some s => if s = "" then dflt else s

/-- The parsed JSON body of an HTTP response: an abstract payload plus the
`error` field the client reads on failure (`none` when the field is absent). -/
structure JsonBody (α : Type) where
  payload : α
  errField : Option String
deriving DecidableEq, Repr

/-- How the network behaves for one fetch: the server responds at time
`arrival` (ms) with a status and parsed body, or the fetch rejects at time
`arrival` with a thrown value (`isError` = the value is an `Error` instance
with the given `name` and `msg`), or nothing ever happens (`hang`). -/
inductive ServerBehavior (α : Type)
  | respond (arrival : Nat) (httpOk : Bool) (body : JsonBody α)
  | reject (arrival : Nat) (isError : Bool) (name : String) (msg : String)
  | hang
deriving DecidableEq, Repr

/-- The abort timer fires iff the budget elapses before the fetch settles:
the timer set by `setTimeout(() => controller.abort(), timeoutMs)` is cleared
only once the fetch resolves or rejects first. -/
def abortedByTimeout (timeoutMs : Nat) : ServerBehavior α → Bool
  | .respond arrival _ _ => timeoutMs ≤ arrival
  | .reject arrival _ _ _ => timeoutMs ≤ arrival
  | .hang => true

/-- `ApiClient.requestWithTimeout`, outcome part. An aborted fetch rejects
with an `AbortError`, which the catch block maps to `timeoutMessage`. A
settled response is parsed: 2xx returns the payload, non-2xx throws
`data.error || 'Request failed'` (an `Error`, rethrown as-is by the catch). A
rejection with an `Error` named `AbortError` also maps to `timeoutMessage`;
any other `Error` is rethrown verbatim; a non-`Error` thrown value becomes
`networkErrorMessage`. -/
def requestWithTimeout (timeoutMs : Nat) (sb : ServerBehavior α) : Except String α :=
  match sb with
  | .respond arrival httpOk body =>
    if timeoutMs ≤ arrival then Except.error timeoutMessage
    else if httpOk then Except.ok body.payload
    else Except.error (jsOrString body.errField requestFailedMessage)
  | .reject arrival isError name msg =>
    if timeoutMs ≤ arrival then Except.error timeoutMessage
    else if isError then
      if name = "AbortError" then Except.error timeoutMessage else Except.error msg
    else Except.error networkErrorMessage
  | .hang => Except.error timeoutMessage

/-- `ApiClient.diagnoseImage`, outcome part: same control flow as
`requestWithTimeout` but with an inline 90000 ms timer and its own messages
(`'Image analysis timeout - please try again'`, `data.error || 'Image
analysis failed'`). -/
def diagnoseImageRun (sb : ServerBehavior α) : Except String α :=
  match sb with
  | .respond arrival httpOk body =>
    if 90000 ≤ arrival then Except.error imageTimeoutMessage
    else if httpOk then Except.ok body.payload
    else Except.error (jsOrString body.errField imageFailedMessage)
  | .reject arrival isError name msg =>
    if 90000 ≤ arrival then Except.error imageTimeoutMessage
    else if isError then
      if name = "AbortError" then Except.error imageTimeoutMessage else Except.error msg
    else Except.error networkErrorMessage
  | .hang => Except.error imageTimeoutMessage

/-! ### Request configuration (headers, credentials) -/

/-- Lookup in an association list of headers (first match wins). -/
def lookupHeader (hs : List (String × String)) (k : String) : Option String :=
  match hs with
  | [] => none
  | kv :: rest => if kv.1 = k then some kv.2 else lookupHeader rest k

/-- JavaScript object spread `{...base, ...extra}`: keys of `extra` override
keys of `base`. -/
def spreadMerge (base extra : List (String × String)) : List (String × String) :=
  base.filter (fun kv => extra.all (fun kv2 => kv2.1 ≠ kv.1)) ++ extra

/-- The caller-controlled parts of `RequestInit` the executor inspects:
whether `options.body instanceof FormData`, and the header overrides. -/
structure ReqOptions where
  isFormData : Bool
  headers : List (String × String)
deriving DecidableEq, Repr

/-- The parts of the fetch `config` built by `requestWithTimeout`. -/
structure FetchConfig where
  credentials : String
  headers : List (String × String)
deriving DecidableEq, Repr

/-- `ApiClient.requestWithTimeout`, config part: always
`credentials: 'include'`; headers are the JSON content type (unless the body
is `FormData`) overridden by `options.headers`. -/
def requestConfig (options : ReqOptions) : FetchConfig :=
  { credentials := "include"
  , headers := spreadMerge
      (if options.isFormData then [] else [("Content-Type", "application/json")])
      options.headers }

/-- The fetch config built inline by `ApiClient.diagnoseImage`:
`credentials: 'include'`, no headers key at all. -/
def diagnoseImageConfig : FetchConfig :=
  { credentials := "include", headers := [] }

/-! ### API Gateway: one request descriptor per method -/

/-- One value appended to a `FormData` payload: a file reference (abstract
id) or a text field. -/
inductive FormValue
  | fileRef (id : Nat)
  | text (s : String)
deriving DecidableEq, Repr

/-- The body a Gateway method hands to fetch: a `JSON.stringify`'d object
(kept as its field list — every body in this client is an object of string
fields), a multipart `FormData` entry list, or no body. -/
inductive BodyPayload
  | jsonFields (fields : List (String × String))
  | form (entries : List (String × FormValue))
  | empty
deriving DecidableEq, Repr

/-- The per-call request descriptor a Gateway method fixes: endpoint, HTTP
method, timeout budget handed to the executor, and body. -/
structure RequestDescriptor where
  endpoint : String
  method : String
  timeoutMs : Nat
  body : BodyPayload
deriving DecidableEq, Repr

/-- Whether a JSON body carries a field named `k`. -/
def bodyHasField (d : RequestDescriptor) (k : String) : Bool :=
  match d.body with
  | BodyPayload.jsonFields fields => fields.any (fun kv => kv.1 == k)
  | _ => false

/-- `ApiClient.request` delegates with a 10000 ms default timeout. -/
def defaultTimeoutMs : Nat := 10000

/-- `ApiClient.register`. -/
def registerCall (username email password : String) : RequestDescriptor :=
  ⟨"/api/register", "POST", defaultTimeoutMs,
    BodyPayload.jsonFields [("username", username), ("email", email), ("password", password)]⟩

/-- `ApiClient.login`: two parameters, body `{username, password}`. -/
def loginCall (username password : String) : RequestDescriptor :=
  ⟨"/api/login", "POST", defaultTimeoutMs,
    BodyPayload.jsonFields [("username", username), ("password", password)]⟩

/-- `ApiClient.logout`. -/
def logoutCall : RequestDescriptor :=
  ⟨"/api/logout", "POST", defaultTimeoutMs, BodyPayload.empty⟩

/-- `ApiClient.checkAuth`: explicit 5000 ms budget, empty options (GET). -/
def checkAuthCall : RequestDescriptor :=
  ⟨"/api/check-auth", "GET", 5000, BodyPayload.empty⟩

/-- `ApiClient.forgotPassword`. -/
def forgotPasswordCall (email : String) : RequestDescriptor :=
  ⟨"/api/forgot-password", "POST", defaultTimeoutMs, BodyPayload.jsonFields [("email", email)]⟩

/-- `ApiClient.diagnose`: explicit 60000 ms budget. -/
def diagnoseCall (symptoms : String) : RequestDescriptor :=
  ⟨"/api/diagnose", "POST", 60000, BodyPayload.jsonFields [("symptoms", symptoms)]⟩

/-- The `FormData` built by `ApiClient.diagnoseImage`: always the image;
the symptoms field only under JavaScript `if (symptoms)`, i.e. when the
optional argument is present and non-empty. -/
def diagnoseImageForm (image : Nat) (symptoms : Option String) : List (String × FormValue) :=
  [("image", FormValue.fileRef image)] ++
    (match symptoms with
     | some s => if s = "" then [] else [("symptoms", FormValue.text s)]
     | none => [])

/-- Whether the form payload carries an entry named `k`. -/
def formHasField (entries : List (String × FormValue)) (k : String) : Bool :=
  entries.any (fun kv => kv.1 == k)

/-- `ApiClient.diagnoseImage`: inline fetch with a 90000 ms timer. -/
def diagnoseImageCall (image : Nat) (symptoms : Option String) : RequestDescriptor :=
  ⟨"/api/diagnose-image", "POST", 90000, BodyPayload.form (diagnoseImageForm image symptoms)⟩

/-- `ApiClient.getDiagnosisHistory`: explicit 30000 ms budget. -/
def getDiagnosisHistoryCall (page perPage : Nat) : RequestDescriptor :=
  ⟨"/api/diagnosis-history?page=" ++ toString page ++ "&per_page=" ++ toString perPage,
    "GET", 30000, BodyPayload.empty⟩

/-- `ApiClient.sendChatMessage`: explicit 30000 ms budget. -/
def sendChatMessageCall (message : String) : RequestDescriptor :=
  ⟨"/api/chat", "POST", 30000, BodyPayload.jsonFields [("message", message)]⟩

/-- `ApiClient.getChatHistory`: explicit 30000 ms budget. -/
def getChatHistoryCall (page perPage : Nat) : RequestDescriptor :=
  ⟨"/api/chat-history?page=" ++ toString page ++ "&per_page=" ++ toString perPage,
    "GET", 30000, BodyPayload.empty⟩

/-! ### Session/Auth Coordinator -/

/-- The user record the backend returns (fields of the `User` interface the
coordinator stores verbatim; optional fields omitted — the coordinator never
inspects them). -/
structure User where
  id : Nat
  username : String
  email : String
deriving DecidableEq, Repr

/-- What the persisted credential record parses to: `JSON.parse` may throw
(`malformed`), or yield an object whose `username`/`password` fields may be
missing (`none`) or any string. -/
inductive StoredData
  | malformed
  | record (username : Option String) (password : Option String)
deriving DecidableEq, Repr

/-- Coordinator state: the React `user`/`loading` state plus the local
storage slot under `medmate_remember_me`. -/
structure CoordState where
  user : Option User
  loading : Bool
  storage : Option StoredData
deriving DecidableEq, Repr

/-- JavaScript truthiness of an optional string field (`!field` is true for
a missing field and for the empty string). -/
def truthyStr : Option String → Bool
  | none => false
  | some s => !(s == "")

/-- Outcome of one `api.login` call: resolves with a user, or throws. -/
inductive LoginOutcome
  | success (u : User)
  | throws
deriving DecidableEq, Repr

/-- Outcome of one `api.checkAuth` call: resolves with
`{authenticated, user}`, or throws. -/
inductive CheckAuthOutcome
  | resp (authenticated : Bool) (user : Option User)
  | throws
deriving DecidableEq, Repr

/-- Outcome of one `api.logout` call. -/
inductive LogoutOutcome
  | success
  | throws
deriving DecidableEq, Repr

/-- `tryAutoLogin` from the auth context. Returns the new state together
with the list of (username, password) login attempts issued. No stored
record: return unchanged. Unparseable record: `JSON.parse` throws, the catch
erases the record. Falsy username or password: erase the record and return
without calling login. Otherwise one `api.login`: on success set the user
(storage untouched), on throw the catch erases the record. -/
def tryAutoLogin (lo : LoginOutcome) (s : CoordState) :
    CoordState × List (String × String) :=
  match s.storage with
  | none => (s, [])
  | some StoredData.malformed => ({ s with storage := none }, [])
  | some (StoredData.record uopt popt) =>
    if truthyStr uopt && truthyStr popt then
      match lo with
      | LoginOutcome.success usr =>
        ({ s with user := some usr }, [(uopt.getD "", popt.getD "")])
      | LoginOutcome.throws =>
        ({ s with storage := none }, [(uopt.getD "", popt.getD "")])
    else
      ({ s with storage := none }, [])

/-- `checkAuth` from the auth context (the startup reconciliation).
`api.checkAuth` resolving `{authenticated: true}` sets the user; resolving
unauthenticated or throwing sets the user to null and runs `tryAutoLogin`;
the `finally` clears `loading` on every path. -/
def checkAuthFlow (co : CheckAuthOutcome) (lo : LoginOutcome) (s : CoordState) :
    CoordState × List (String × String) :=
  let step :=
    match co with
    | CheckAuthOutcome.resp true u => ({ s with user := u }, ([] : List (String × String)))
    | CheckAuthOutcome.resp false _ => tryAutoLogin lo { s with user := none }
    | CheckAuthOutcome.throws => tryAutoLogin lo { s with user := none }
  ({ step.1 with loading := false }, step.2)

/-- `co` reports not authenticated, or throws. -/
def reportsAnonOrThrows : CheckAuthOutcome → Bool
  | CheckAuthOutcome.resp a _ => !a
  | CheckAuthOutcome.throws => true

/-- `login` from the auth context: issues `api.login(username, password,
rememberMe)` — the Gateway method only has two parameters, so the issued
request is `loginCall username password`. On success set the user and, when
`rememberMe`, persist the credentials; on throw the error is rethrown after
the toast. -/
def loginAction (lo : LoginOutcome) (username password : String) (rememberMe : Bool)
    (s : CoordState) : Except Unit CoordState × RequestDescriptor :=
  ( match lo with
    | LoginOutcome.success usr =>
      Except.ok { s with
        user := some usr
      , storage := if rememberMe
          then some (StoredData.record (some username) (some password))
          else s.storage }
    | LoginOutcome.throws => Except.error ()
  , loginCall username password )

/-- `logout` from the auth context: the user is nulled and the record erased
only after `api.logout` resolves; the catch only shows a toast, leaving all
local state as it was. -/
def logoutFlow (o : LogoutOutcome) (s : CoordState) : CoordState :=
  match o with
  | LogoutOutcome.success => { s with user := none, storage := none }
  | LogoutOutcome.throws => s

/-! ### Claims -/

/-- C2: for every call through the request runner, if the call is aborted
because the timeout budget elapsed before the server settled the fetch, it
rejects with the timed-out error message and never with the generic
`'Network error occurred'` classification. -/
theorem requestWithTimeout_timeout_error {α : Type} (timeoutMs : Nat)
    (sb : ServerBehavior α) (h : abortedByTimeout timeoutMs sb = true) :
    requestWithTimeout timeoutMs sb = Except.error timeoutMessage ∧
    requestWithTimeout timeoutMs sb ≠ Except.error networkErrorMessage := by
  have heq : requestWithTimeout timeoutMs sb = Except.error timeoutMessage := by
    cases sb with
    | respond arrival httpOk body =>
      simp only [abortedByTimeout, decide_eq_true_eq] at h
      simp [requestWithTimeout, h]
    | reject arrival isError name msg =>
      simp only [abortedByTimeout, decide_eq_true_eq] at h
      simp [requestWithTimeout, h]
    | hang => rfl
  refine ⟨heq, ?_⟩
  rw [heq]
  intro hco
  exact absurd (Except.error.inj hco) (by decide)

/-- C2 witness: a server that only answers at 6000 ms against a 5000 ms
budget is aborted and yields exactly the timed-out error. -/
theorem requestWithTimeout_timeout_error_witness :
    requestWithTimeout 5000 (ServerBehavior.respond 6000 true (⟨0, none⟩ : JsonBody Nat))
      = Except.error timeoutMessage ∧
    requestWithTimeout 5000 (ServerBehavior.respond 6000 true (⟨0, none⟩ : JsonBody Nat))
      ≠ Except.error networkErrorMessage :=
  requestWithTimeout_timeout_error 5000 _ (by decide)

/-- C3 counterexample: a non-2xx response whose body carries the `error`
field with value `""` rejects with the fixed default `'Request failed'`,
not with the (empty) value of the `error` field — `data.error || default`
treats the empty string as falsy. -/
theorem gateway_error_default_on_empty_cex :
    requestWithTimeout 10000
        (ServerBehavior.respond 0 false (⟨0, some ""⟩ : JsonBody Nat))
      = Except.error requestFailedMessage ∧
    requestFailedMessage ≠ "" :=
  ⟨rfl, by decide⟩

/-- C3 amended: for a non-2xx response that arrives within the budget, the
call rejects with `error`-field value when that field is present and
non-empty, and with the fixed default (`'Request failed'`; `'Image analysis
failed'` for `diagnoseImage`) when it is absent or empty; the call never
resolves with a success value. -/
theorem gateway_error_field_message {α : Type} (timeoutMs arrival : Nat)
    (body : JsonBody α) (h : arrival < timeoutMs) (h90 : arrival < 90000) :
    requestWithTimeout timeoutMs (ServerBehavior.respond arrival false body)
      = Except.error (jsOrString body.errField requestFailedMessage) ∧
    diagnoseImageRun (ServerBehavior.respond arrival false body)
      = Except.error (jsOrString body.errField imageFailedMessage) ∧
    (∀ s, body.errField = some s → s ≠ "" →
      jsOrString body.errField requestFailedMessage = s ∧
      jsOrString body.errField imageFailedMessage = s) ∧
    (∀ x, requestWithTimeout timeoutMs (ServerBehavior.respond arrival false body)
      ≠ Except.ok x) ∧
    (∀ x, diagnoseImageRun (ServerBehavior.respond arrival false body)
      ≠ Except.ok x) := by
  have h1 : ¬ timeoutMs ≤ arrival := Nat.not_le.mpr h
  have h2 : ¬ (90000 : Nat) ≤ arrival := Nat.not_le.mpr h90
  refine ⟨?_, ?_, ?_, ?_, ?_⟩
  · simp [requestWithTimeout, h1]
  · simp [diagnoseImageRun, h2]
  · intro s hs hne
    simp [jsOrString, hs, hne]
  · intro x
    simp [requestWithTimeout, h1]
  · intro x
    simp [diagnoseImageRun, h2]

/-- C3 amended witness: a 401-style body with `error: 'Invalid credentials'`
arriving immediately yields exactly that message on both paths. -/
theorem gateway_error_field_message_witness :
    requestWithTimeout 10000
        (ServerBehavior.respond 0 false (⟨0, some "Invalid credentials"⟩ : JsonBody Nat))
      = Except.error (jsOrString (some "Invalid credentials") requestFailedMessage) ∧
    diagnoseImageRun
        (ServerBehavior.respond 0 false (⟨0, some "Invalid credentials"⟩ : JsonBody Nat))
      = Except.error (jsOrString (some "Invalid credentials") imageFailedMessage) ∧
    jsOrString (some "Invalid credentials") requestFailedMessage = "Invalid credentials" :=
  have h := gateway_error_field_message 10000 0
    (⟨0, some "Invalid credentials"⟩ : JsonBody Nat) (by decide) (by decide)
  ⟨h.1, h.2.1, (h.2.2.1 "Invalid credentials" rfl (by decide)).1⟩

/-- C5: the timeout budget is fixed per operation class — checkAuth 5000 ms;
login, register and the other default-path operations 10000 ms; diagnose
60000 ms; diagnoseImage 90000 ms; chat, chat history and diagnosis history
30000 ms. -/
theorem gateway_timeout_budgets (u e p sym msg : String) (img page perPage : Nat)
    (sy : Option String) :
    checkAuthCall.timeoutMs = 5000 ∧
    (loginCall u p).timeoutMs = 10000 ∧
    (registerCall u e p).timeoutMs = 10000 ∧
    logoutCall.timeoutMs = 10000 ∧
    (forgotPasswordCall e).timeoutMs = 10000 ∧
    (diagnoseCall sym).timeoutMs = 60000 ∧
    (diagnoseImageCall img sy).timeoutMs = 90000 ∧
    (sendChatMessageCall msg).timeoutMs = 30000 ∧
    (getChatHistoryCall page perPage).timeoutMs = 30000 ∧
    (getDiagnosisHistoryCall page perPage).timeoutMs = 30000 :=
  ⟨rfl, rfl, rfl, rfl, rfl, rfl, rfl, rfl, rfl, rfl⟩

/-- C7: every executor request carries `credentials: 'include'`; when the
caller passes no header overrides (as every Gateway method does), the JSON
content type is present exactly when the body is not `FormData`; the inline
`diagnoseImage` fetch also uses `credentials: 'include'` and sets no
content type. -/
theorem executor_credentials_and_content_type (opts : ReqOptions)
    (h : opts.headers = []) :
    (requestConfig opts).credentials = "include" ∧
    lookupHeader (requestConfig opts).headers "Content-Type"
      = (if opts.isFormData then none else some "application/json") ∧
    diagnoseImageConfig.credentials = "include" ∧
    lookupHeader diagnoseImageConfig.headers "Content-Type" = none := by
  refine ⟨rfl, ?_, rfl, rfl⟩
  cases hf : opts.isFormData <;>
    simp [requestConfig, spreadMerge, h, lookupHeader, hf]

/-- C7 witness: a `FormData` request with no overrides has no content type;
a JSON request with no overrides has `application/json`. -/
theorem executor_credentials_and_content_type_witness :
    ((requestConfig ⟨true, []⟩).credentials = "include" ∧
      lookupHeader (requestConfig ⟨true, []⟩).headers "Content-Type"
        = (if (ReqOptions.mk true []).isFormData then none else some "application/json") ∧
      diagnoseImageConfig.credentials = "include" ∧
      lookupHeader diagnoseImageConfig.headers "Content-Type" = none) ∧
    lookupHeader (requestConfig ⟨false, []⟩).headers "Content-Type"
      = some "application/json" :=
  ⟨executor_credentials_and_content_type ⟨true, []⟩ rfl,
    (executor_credentials_and_content_type ⟨false, []⟩ rfl).2.1⟩

/-- C1: when checkAuth reports not authenticated or throws and a well-formed
persisted credential record exists, the startup reconciliation issues exactly
one login attempt with those credentials; on success the state becomes
Authenticated with the user from the response (record untouched), on failure
the record is erased and the user stays null. -/
theorem checkAuth_silent_relogin (co : CheckAuthOutcome) (lo : LoginOutcome)
    (s : CoordState) (u p : String)
    (hco : reportsAnonOrThrows co = true)
    (hst : s.storage = some (StoredData.record (some u) (some p)))
    (hu : u ≠ "") (hp : p ≠ "") :
    (checkAuthFlow co lo s).2 = [(u, p)] ∧
    (checkAuthFlow co lo s).1 =
      (match lo with
       | LoginOutcome.success usr =>
         { s with user := some usr, loading := false }
       | LoginOutcome.throws =>
         { s with user := none, storage := none, loading := false }) := by
  have htry : tryAutoLogin lo { s with user := none } =
      (match lo with
       | LoginOutcome.success usr => ({ s with user := some usr }, [(u, p)])
       | LoginOutcome.throws => ({ s with user := none, storage := none }, [(u, p)])) := by
    cases lo <;> simp [tryAutoLogin, hst, truthyStr, hu, hp]
  cases co with
  | resp a uo =>
    cases a with
    | true => simp [reportsAnonOrThrows] at hco
    | false =>
      cases lo <;> simp [checkAuthFlow, htry]
  | throws =>
    cases lo <;> simp [checkAuthFlow, htry]

/-- C1 witness: stored record ("alice", "pw") with checkAuth reporting
unauthenticated; a successful silent login authenticates with the returned
user and keeps the record. -/
theorem checkAuth_silent_relogin_witness :
    (checkAuthFlow (CheckAuthOutcome.resp false none)
        (LoginOutcome.success ⟨1, "alice", "al"⟩)
        ⟨none, true, some (StoredData.record (some "alice") (some "pw"))⟩).2
      = [("alice", "pw")] ∧
    (checkAuthFlow (CheckAuthOutcome.resp false none)
        (LoginOutcome.success ⟨1, "alice", "al"⟩)
        ⟨none, true, some (StoredData.record (some "alice") (some "pw"))⟩).1
      = ⟨some ⟨1, "alice", "al"⟩, false,
          some (StoredData.record (some "alice") (some "pw"))⟩ :=
  checkAuth_silent_relogin _ _ _ "alice" "pw" rfl rfl (by decide) (by decide)

/-- C4: if the server logout call throws, the coordinator's local state is
fully unchanged (user kept, record kept); user is nulled and the record
erased exactly on a successful server logout. -/
theorem logout_clears_only_on_success (s : CoordState) :
    logoutFlow LogoutOutcome.throws s = s ∧
    (logoutFlow LogoutOutcome.success s).user = none ∧
    (logoutFlow LogoutOutcome.success s).storage = none :=
  ⟨rfl, rfl, rfl⟩

/-- C6 counterexample: the Gateway login request carries only `username` and
`password` — no remember field — and the request issued by the coordinator's
login is identical whether the remember flag is true or false: the flag is
not part of the Gateway call. -/
theorem gateway_login_remember_cex :
    (loginCall "alice" "pw").body
      = BodyPayload.jsonFields [("username", "alice"), ("password", "pw")] ∧
    bodyHasField (loginCall "alice" "pw") "remember" = false ∧
    bodyHasField (loginCall "alice" "pw") "rememberMe" = false ∧
    (loginAction (LoginOutcome.success ⟨1, "alice", "al"⟩) "alice" "pw" true
        ⟨none, false, none⟩).2
      = (loginAction (LoginOutcome.success ⟨1, "alice", "al"⟩) "alice" "pw" false
        ⟨none, false, none⟩).2 :=
  ⟨rfl, by decide, by decide, rfl⟩

/-- C6 amended: the Gateway login method accepts only (username, password);
the remember flag the coordinator passes at the call site is not part of the
Gateway request (same request for any flag value, no remember field in the
body); on success the coordinator stores the authenticated user, and
credential persistence is handled locally by the coordinator. -/
theorem gateway_login_remember_ignored (u p : String) (r1 r2 : Bool)
    (lo : LoginOutcome) (s : CoordState) :
    (loginAction lo u p r1 s).2 = loginCall u p ∧
    (loginAction lo u p r1 s).2 = (loginAction lo u p r2 s).2 ∧
    bodyHasField (loginCall u p) "remember" = false ∧
    (∀ usr, lo = LoginOutcome.success usr →
      (loginAction lo u p r1 s).1 = Except.ok { s with
        user := some usr
      , storage := if r1 then some (StoredData.record (some u) (some p))
          else s.storage }) := by
  refine ⟨rfl, rfl, ?_, ?_⟩
  · simp [bodyHasField, loginCall]
  · rintro usr rfl
    rfl

/-- C6 amended witness: with rememberMe true and a successful login the
issued request is the two-field login request, identical to the
rememberMe-false one. -/
theorem gateway_login_remember_ignored_witness :
    (loginAction (LoginOutcome.success ⟨1, "alice", "al"⟩) "alice" "pw" true
        ⟨none, false, none⟩).2 = loginCall "alice" "pw" ∧
    (loginAction (LoginOutcome.success ⟨1, "alice", "al"⟩) "alice" "pw" true
        ⟨none, false, none⟩).2
      = (loginAction (LoginOutcome.success ⟨1, "alice", "al"⟩) "alice" "pw" false
        ⟨none, false, none⟩).2 ∧
    bodyHasField (loginCall "alice" "pw") "remember" = false :=
  have h := gateway_login_remember_ignored "alice" "pw" true false
    (LoginOutcome.success ⟨1, "alice", "al"⟩) ⟨none, false, none⟩
  ⟨h.1, h.2.1, h.2.2.1⟩

/-- C8: on every execution path of the startup reconciliation — checkAuth
authenticated, unauthenticated or throwing, silent re-login succeeding or
failing, any starting state — the coordinator ends with loading = false;
the flow is total (every external failure is absorbed by the embedded
catch branches), so no error reaches the caller. -/
theorem checkAuth_clears_loading (co : CheckAuthOutcome) (lo : LoginOutcome)
    (s : CoordState) : (checkAuthFlow co lo s).1.loading = false := by
  cases co with
  | resp a uo => cases a <;> rfl
  | throws => rfl

/-- C9: a persisted record whose username or password field is missing or
empty is erased, no login request is issued, and the user state is left
untouched. -/
theorem tryAutoLogin_malformed_record (lo : LoginOutcome) (s : CoordState)
    (uopt popt : Option String)
    (hst : s.storage = some (StoredData.record uopt popt))
    (hbad : truthyStr uopt = false ∨ truthyStr popt = false) :
    (tryAutoLogin lo s).1.storage = none ∧
    (tryAutoLogin lo s).1.user = s.user ∧
    (tryAutoLogin lo s).2 = [] := by
  have hcond : (truthyStr uopt && truthyStr popt) = false := by
    rcases hbad with h | h <;> simp [h]
  simp [tryAutoLogin, hst, hcond]

/-- C9 witness: a record with an empty username is erased with no login
attempt and the user untouched. -/
theorem tryAutoLogin_malformed_record_witness :
    (tryAutoLogin LoginOutcome.throws
        ⟨none, true, some (StoredData.record (some "") (some "pw"))⟩).1.storage = none ∧
    (tryAutoLogin LoginOutcome.throws
        ⟨none, true, some (StoredData.record (some "") (some "pw"))⟩).1.user = none ∧
    (tryAutoLogin LoginOutcome.throws
        ⟨none, true, some (StoredData.record (some "") (some "pw"))⟩).2 = [] :=
  tryAutoLogin_malformed_record _ _ (some "") (some "pw") rfl (Or.inl rfl)

/-- C10: the diagnoseImage multipart payload contains only the image field
when symptoms is absent or empty, the image plus a symptoms field when
symptoms is non-empty, and the symptoms field is present exactly when a
non-empty symptoms string was passed. -/
theorem diagnoseImage_symptoms_appended_iff (img : Nat) (symptoms : Option String) :
    ((symptoms = none ∨ symptoms = some "") →
      diagnoseImageForm img symptoms = [("image", FormValue.fileRef img)]) ∧
    (∀ s, symptoms = some s → s ≠ "" →
      diagnoseImageForm img symptoms
        = [("image", FormValue.fileRef img), ("symptoms", FormValue.text s)]) ∧
    (formHasField (diagnoseImageForm img symptoms) "symptoms" = true ↔
      ∃ s, symptoms = some s ∧ s ≠ "") := by
  refine ⟨?_, ?_, ?_⟩
  · rintro (h | h) <;> subst h <;> rfl
  · rintro s rfl hs
    simp [diagnoseImageForm, hs]
  · cases symptoms with
    | none => simp [diagnoseImageForm, formHasField]
    | some s =>
      by_cases hs : s = ""
      · subst hs
        simp [diagnoseImageForm, formHasField]
      · simp [diagnoseImageForm, formHasField, hs]

/-- C10 witness: empty-symptoms call sends only the image; a non-empty
symptoms string is appended as a second field. -/
theorem diagnoseImage_symptoms_appended_iff_witness :
    diagnoseImageForm 7 (some "") = [("image", FormValue.fileRef 7)] ∧
    diagnoseImageForm 7 (some "rash")
      = [("image", FormValue.fileRef 7), ("symptoms", FormValue.text "rash")] :=
  ⟨(diagnoseImage_symptoms_appended_iff 7 (some "")).1 (Or.inr rfl),
    (diagnoseImage_symptoms_appended_iff 7 (some "rash")).2.1 "rash" rfl (by decide)⟩

end MedMate
